import Mathlib

/-!
Verification of the build-orchestration core of the serverless-rust plugin
(src/index.js) against its natural-language specification.

The source is a single JavaScript file.  The embedding below translates each
function of that file into a Lean definition, modelling JavaScript semantics
explicitly where they matter:

* `undefined`/missing values are `Option`;
* JavaScript truthiness of strings (`""` and `undefined` are falsy) is
  `jsStrTruthy`;
* `String.prototype.split` with a one-character separator is `jsSplit`
  (character-list level) and, at one call site, `String.splitOn` (the two
  agree for a single-character separator);
* `parseInt` is `jsParseInt` (skip whitespace, optional sign, leading
  decimal digits, `NaN` becomes `none`);
* a thrown JavaScript exception is a `JsError` value; reading an undeclared
  variable is `JsError.referenceError`.

The subprocess spawned by `dockerBuild` (the build executor) is an external
collaborator per the spec; its outcome is passed to `build` as a
`SpawnResult` argument, exactly the shape `spawnSync` returns (an optional
spawn error, an optional numeric exit status).
-/

namespace ServerlessRust

/-- JavaScript string truthiness for a possibly-undefined string value:
`undefined` and the empty string are falsy. -/
def jsStrTruthy : Option String → Bool
  | none => false
  | some s => !(s == "")

/-- The JavaScript expression `a || b` for a possibly-undefined string `a`
and a defaulting string `b`, as in `env["SLS_DOCKER_ARGS"] || ""`. -/
def jsOrDefault (a : Option String) (b : String) : String :=
  if jsStrTruthy a then a.getD "" else b

/-- The JavaScript expression `a || b` on two possibly-undefined string
values, as in `func.runtime || service.provider.runtime` (src/index.js:147). -/
def jsOr (a b : Option String) : Option String :=
  if jsStrTruthy a then a else b

/-- Rendering of a possibly-undefined string in a template literal:
`undefined` prints as "undefined". -/
def jsShowOptStr : Option String → String
  | none => "undefined"
  | some s => s

/-- Rendering of the (nullable) numeric exit status in a template literal:
`null` prints as "null". -/
def jsShowStatus : Option Int → String
  | none => "null"
  | some n => toString n

/-- The JavaScript comparison `res.status > 0` where `status` may be `null`
(`null > 0` is false). -/
def jsStatusPos : Option Int → Bool
  | none => false
  | some n => 0 < n

/-- `x` occurs as a substring of `s`. -/
def strIncludes (s x : String) : Prop :=
  ∃ pre post, s = pre ++ x ++ post

/-- `String.prototype.split` with a single-character separator, at the
character-list level.  `split` never returns an empty array: splitting the
empty string yields `[[]]`, and each separator occurrence starts a new
(possibly empty) group. -/
def jsSplit (sep : Char) : List Char → List (List Char)
  | [] => [[]]
  | c :: rest =>
    if c = sep then [] :: jsSplit sep rest
    else
      match jsSplit sep rest with
      | [] => [[c]]
      | g :: gs => (c :: g) :: gs

/-- Accumulating decimal value of a digit-character list, most significant
digit first (the core of `parseInt`'s digit loop). -/
def digitsToNat (acc : Nat) : List Char → Nat
  | [] => acc
  | c :: rest => digitsToNat (acc * 10 + (c.toNat - 48)) rest

/-- The digit-consuming part of `parseInt`: value of the longest leading
run of decimal digits, `none` (NaN) if there is none. -/
def jsParseNat (s : List Char) : Option Nat :=
  let ds := s.takeWhile Char.isDigit
  if ds.isEmpty then none else some (digitsToNat 0 ds)

/-- JavaScript `parseInt` (radix 10) on a character list: skip leading
whitespace, accept an optional sign, then read leading decimal digits;
`NaN` is modelled as `none`. -/
def jsParseInt (s : List Char) : Option Int :=
  match s.dropWhile Char.isWhitespace with
  | [] => none
  | c :: r =>
    if c = '-' then (jsParseNat r).map (fun n => -(n : Int))
    else if c = '+' then (jsParseNat r).map (fun n => (n : Int))
    else (jsParseNat (c :: r)).map (fun n => (n : Int))

/-- `includeInvokeHook` (src/index.js:17-22): split the host version string
on ".", destructure into major and minor components (`minor` is `undefined`
when absent, and `parseInt(undefined)` is NaN), and test
`majorVersion === 1 && minorVersion >= 38 && minorVersion < 40`
(all comparisons are false on NaN). -/
def includeInvokeHook (serverlessVersion : String) : Bool :=
  let parts := jsSplit '.' serverlessVersion.data
  let majorVersion : Option Int := Option.bind parts.head? jsParseInt
  let minorVersion : Option Int := Option.bind parts[1]? jsParseInt
  decide (majorVersion = some 1) &&
    (match minorVersion with
     | none => false
     | some m => decide (38 ≤ m) && decide (m < 40))

/-- `RUST_RUNTIME` (src/index.js:13): the handled runtime identifier. -/
def RUST_RUNTIME : String := "rust"

/-- `BASE_RUNTIME` (src/index.js:14): the base platform runtime identifier
substituted after a build. -/
def BASE_RUNTIME : String := "provided.al2"

/-- The hook names registered by the `RustPlugin` constructor
(src/index.js:32-40): four fixed hooks, plus `before:invoke:local:invoke`
exactly when `includeInvokeHook` accepts the host version. -/
def pluginHooks (serverlessVersion : String) : List String :=
  ["before:package:createDeploymentArtifacts",
   "before:deploy:function:packageFunction",
   "before:offline:start",
   "before:offline:start:init"] ++
  (if includeInvokeHook serverlessVersion then ["before:invoke:local:invoke"] else [])

/-- The merged `this.custom` configuration object (src/index.js:41-50):
`cargoFlags`, `dockerTag`, `dockerImage`, `dockerless` always present after
the default-merge; `cargoPackage` and `profile` only when the caller set
them. -/
structure Custom where
  cargoFlags : String
  dockerTag : String
  dockerImage : String
  dockerless : Bool
  cargoPackage : Option String
  profile : Option String
  deriving Repr, DecidableEq

/-- Lines 86-97 of `dockerBuildArgs`: the final cargo flags string.
Start from the configured `cargoFlags`; when `cargoPackage != undefined`,
append a package-selection flag — concatenated as
`cargoFlags ++ " -p " ++ pkg` when `cargoFlags` was truthy (non-empty),
standalone as `" -p " ++ pkg` otherwise. -/
def assembledCargoFlags (cargoFlags : String) (cargoPackage : Option String) : String :=
  match cargoPackage with
  | none => cargoFlags
  | some p => if cargoFlags != "" then cargoFlags ++ " -p " ++ p else " -p " ++ p

/-- `RustPlugin.dockerBuildArgs` (src/index.js:65-108).  `env` is the
ambient process environment.  Note the lone "-e" at index 3 of
`defaultArgs` is in the source.  The returned array is filtered by
JavaScript truthiness, which for strings removes exactly the empty ones. -/
def dockerBuildArgs (custom : Custom) (cargoPackage : Option String)
    (profile : Option String) (srcPath cargoRegistry cargoDownloads : String)
    (env : String → Option String) : List String :=
  let defaultArgs : List String :=
    ["run", "--rm", "-t", "-e",
     "-v", srcPath ++ ":/code",
     "-v", cargoRegistry ++ ":/cargo/registry",
     "-v", cargoDownloads ++ ":/cargo/git"]
  let customArgs : List String := (jsOrDefault (env "SLS_DOCKER_ARGS") "").splitOn " "
  let customArgs : List String :=
    if jsStrTruthy profile then customArgs ++ ["-e", "PROFILE=" ++ profile.getD ""]
    else customArgs
  let cargoFlags := assembledCargoFlags custom.cargoFlags cargoPackage
  let customArgs : List String :=
    if cargoFlags != "" then customArgs ++ ["-e", "CARGO_FLAGS=" ++ cargoFlags]
    else customArgs
  (defaultArgs ++ customArgs ++ [custom.dockerTag ++ ":" ++ custom.dockerImage]).filter
    (fun i => i != "")

/-- A function's `package` object; `artifact` is the packaging artifact
override path. -/
structure Pkg where
  artifact : Option String
  deriving Repr, DecidableEq

/-- A declared function (build unit): its own `runtime` (possibly absent)
and its `package` object (possibly absent). -/
structure FuncDef where
  runtime : Option String
  package : Option Pkg
  deriving Repr, DecidableEq

/-- The `service.provider` object: provider `name` and the pipeline-wide
default `runtime`. -/
structure Provider where
  name : String
  runtime : Option String
  deriving Repr, DecidableEq

/-- The host `service` object: the provider and the declared functions
(an ordered name-to-definition map). -/
structure Service where
  provider : Provider
  functions : List (String × FuncDef)
  deriving Repr, DecidableEq

/-- The host's `service.getFunction(name)`: look a function up by name. -/
def Service.getFunction (s : Service) (n : String) : Option FuncDef :=
  (s.functions.find? (fun p => p.1 == n)).map (fun p => p.2)

/-- The host's `service.getAllFunctions()`: all declared function names,
in declaration order. -/
def Service.getAllFunctions (s : Service) : List String :=
  s.functions.map (fun p => p.1)

/-- The CLI options object; `function` is set when the caller requested a
single function. -/
structure Options where
  function : Option String
  deriving Repr, DecidableEq

/-- `RustPlugin.functions` (src/index.js:130-136): the names in scope — the
single caller-specified function if any, otherwise all declared ones. -/
def scopedFunctions (opts : Options) (s : Service) : List String :=
  match opts.function with
  | some f => [f]
  | none => s.getAllFunctions

/-- The value `spawnSync` returns, as far as `build` inspects it
(src/index.js:163): an optional spawn `error` (rendered to its display
string) and a nullable numeric exit `status`. -/
structure SpawnResult where
  error : Option String
  status : Option Int
  deriving Repr, DecidableEq

/-- A thrown JavaScript exception: `error` is a `new Error(message)` throw
(`new Error(undefined)` has the empty message), `referenceError` is the
runtime's reaction to reading an undeclared variable, `hostError` is an
exception raised inside a host-framework call such as `getFunction` on an
unknown name. -/
inductive JsError where
  | error (message : String)
  | referenceError (name : String)
  | hostError (message : String)
  deriving Repr, DecidableEq

/-- The observable outcome of one call to `RustPlugin.build`: the final
`service` object (mutated in place by the source; returned here), the
exception that escaped if any, whether `dockerBuild` spawned the
subprocess, and the `cli.log` lines emitted. -/
structure BuildOutput where
  service : Service
  err : Option JsError
  spawned : Bool
  log : List String
  deriving Repr, DecidableEq

/-- The message of the error thrown at src/index.js:155-159 when no Rust
function is in scope. -/
def noRustFunctionsMessage : String :=
  "Error: no Rust functions found. Use \x27runtime: " ++ RUST_RUNTIME ++
    "\x27 in global or function configuration to use this plugin."

/-- The diagnostic logged at src/index.js:164-166 on a failed build: the
template literal renders an absent error as "undefined" and a null status
as "null". -/
def buildFailureDiagnostic (res : SpawnResult) : String :=
  "Rust build encountered an error: " ++ jsShowOptStr res.error ++ " " ++
    jsShowStatus res.status ++ "."

/-- The message of the `new Error(res.error)` thrown at src/index.js:167:
the string form of the spawn error alone; `new Error(undefined)` leaves the
message empty. -/
def thrownBuildMessage (res : SpawnResult) : String :=
  match res.error with
  | some e => e
  | none => ""

/-- The first `forEach` of `build` (src/index.js:144-153): scan the scoped
names and record whether any function's effective runtime
(`func.runtime || service.provider.runtime`) equals `RUST_RUNTIME`.
`getFunction` on an unknown name raises a host exception. -/
def rustFunctionsFound (service : Service) : List String → Except JsError Bool
  | [] => .ok false
  | n :: rest =>
    match service.getFunction n with
    | none => .error (.hostError ("Function " ++ n ++ " does not exist in this Service"))
    | some func =>
      (rustFunctionsFound service rest).map
        (fun found => (jsOr func.runtime service.provider.runtime == some RUST_RUNTIME) || found)

/-- The rewrite `forEach` of `build` (src/index.js:170-193).  The source
computes the artifact path with
`path.join(this.srcPath, target/lambda/dev === profile ? debug : release, binary.zip)`
but `profile` (line 183) and `binary` (line 184) are not declared in any
enclosing scope — not in `build`, not at module level.  Reading an
undeclared variable throws a `ReferenceError`, and this read happens before
`func.package` or `func.runtime` is assigned, so the loop body fails on its
first iteration without mutating anything. -/
def rewriteFunctions (service : Service) : List String → Except JsError Service
  | [] => .ok service
  | n :: _rest =>
    match service.getFunction n with
    | none => .error (.hostError ("Function " ++ n ++ " does not exist in this Service"))
    | some _func => .error (.referenceError "profile")

/-- `RustPlugin.build` (src/index.js:138-197).  The spawn outcome is the
`res` argument (the executor is an external collaborator).  Steps, in
source order: provider gate, Rust-function scan, no-Rust error, spawn,
failure check (log a diagnostic then `throw new Error(res.error)`), rewrite
loop, pipeline-wide default-runtime rewrite. -/
def build (opts : Options) (res : SpawnResult) (service : Service) : BuildOutput :=
  if service.provider.name != "aws" then
    { service := service, err := none, spawned := false, log := [] }
  else
    match rustFunctionsFound service (scopedFunctions opts service) with
    | .error e => { service := service, err := some e, spawned := false, log := [] }
    | .ok false =>
      { service := service, err := some (.error noRustFunctionsMessage),
        spawned := false, log := [] }
    | .ok true =>
      if res.error.isSome || jsStatusPos res.status then
        { service := service, err := some (.error (thrownBuildMessage res)),
          spawned := true,
          log := ["Running containerized build", buildFailureDiagnostic res] }
      else
        match rewriteFunctions service (scopedFunctions opts service) with
        | .error e =>
          { service := service, err := some e, spawned := true,
            log := ["Running containerized build"] }
        | .ok s2 =>
          let s3 :=
            if s2.provider.runtime == some RUST_RUNTIME then
              { s2 with provider := { s2.provider with runtime := some BASE_RUNTIME } }
            else s2
          { service := s3, err := none, spawned := true,
            log := ["Running containerized build"] }

/-! ## Helper lemmas about the Rust-function scan and the rewrite loop -/

theorem rustFunctionsFound_isOk (service : Service) (names : List String)
    (hres : ∀ n ∈ names, (service.getFunction n).isSome) :
    ∃ b, rustFunctionsFound service names = .ok b := by
  induction names with
  | nil => exact ⟨false, rfl⟩
  | cons n rest ih =>
    obtain ⟨f, hf⟩ := Option.isSome_iff_exists.mp (hres n (List.mem_cons_self n rest))
    obtain ⟨b, hb⟩ := ih (fun m hm => hres m (List.mem_cons_of_mem n hm))
    exact ⟨(jsOr f.runtime service.provider.runtime == some RUST_RUNTIME) || b,
      by simp [rustFunctionsFound, hf, hb, Except.map]⟩

theorem rustFunctionsFound_true (service : Service) (names : List String)
    (hres : ∀ n ∈ names, (service.getFunction n).isSome)
    (hmatch : ∃ n ∈ names, ∃ f, service.getFunction n = some f ∧
      jsOr f.runtime service.provider.runtime = some RUST_RUNTIME) :
    rustFunctionsFound service names = .ok true := by
  induction names with
  | nil => simp at hmatch
  | cons n rest ih =>
    obtain ⟨f, hf⟩ := Option.isSome_iff_exists.mp (hres n (List.mem_cons_self n rest))
    obtain ⟨m, hm, g, hg, hrt⟩ := hmatch
    rcases List.mem_cons.mp hm with heq | hmem
    · subst heq
      rw [hf] at hg
      injection hg with hg
      subst hg
      obtain ⟨b, hb⟩ := rustFunctionsFound_isOk service rest
        (fun x hx => hres x (List.mem_cons_of_mem _ hx))
      simp [rustFunctionsFound, hf, hb, hrt, Except.map]
    · have hrest := ih (fun x hx => hres x (List.mem_cons_of_mem _ hx))
        ⟨m, hmem, g, hg, hrt⟩
      simp [rustFunctionsFound, hf, hrest, Except.map]

theorem rustFunctionsFound_false (service : Service) (names : List String)
    (hnone : ∀ n ∈ names, ∃ f, service.getFunction n = some f ∧
      jsOr f.runtime service.provider.runtime ≠ some RUST_RUNTIME) :
    rustFunctionsFound service names = .ok false := by
  induction names with
  | nil => rfl
  | cons n rest ih =>
    obtain ⟨f, hf, hne⟩ := hnone n (List.mem_cons_self n rest)
    have hrest := ih (fun x hx => hnone x (List.mem_cons_of_mem n hx))
    simp [rustFunctionsFound, hf, hrest, hne, Except.map]

/-! ## Claims about the build entry point -/

/-- Claim C7: when the deployment provider is not "aws", `build` returns
immediately: no error, no subprocess spawn, no metadata mutation, not even
a log line. -/
theorem c7_provider_mismatch_is_noop (opts : Options) (res : SpawnResult) (service : Service)
    (h : service.provider.name ≠ "aws") :
    build opts res service =
      { service := service, err := none, spawned := false, log := [] } := by
  simp [build, h]

/-- Witness for C7 at a concrete non-aws provider. -/
theorem c7_provider_mismatch_is_noop_witness :
    build { function := none } { error := none, status := some 0 }
        { provider := { name := "azure", runtime := some "rust" },
          functions := [("hello", { runtime := none, package := none })] } =
      { service := { provider := { name := "azure", runtime := some "rust" },
                     functions := [("hello", { runtime := none, package := none })] },
        err := none, spawned := false, log := [] } :=
  c7_provider_mismatch_is_noop _ _ _ (by decide)

/-- Claim C3: provider "aws" and no function in scope with effective
runtime "rust" — `build` throws an error whose message names the expected
runtime identifier, the subprocess is never spawned, and the service is
untouched. -/
theorem c3_no_rust_functions_error (opts : Options) (res : SpawnResult) (service : Service)
    (hprov : service.provider.name = "aws")
    (hnone : ∀ n ∈ scopedFunctions opts service, ∃ f, service.getFunction n = some f ∧
      jsOr f.runtime service.provider.runtime ≠ some RUST_RUNTIME) :
    build opts res service =
      { service := service, err := some (.error noRustFunctionsMessage),
        spawned := false, log := [] }
    ∧ strIncludes noRustFunctionsMessage RUST_RUNTIME := by
  have hfound := rustFunctionsFound_false service (scopedFunctions opts service) hnone
  constructor
  · simp [build, hprov, hfound]
  · exact ⟨"Error: no Rust functions found. Use \x27runtime: ",
      "\x27 in global or function configuration to use this plugin.", rfl⟩

/-- Witness for C3: one declared function with a Python runtime. -/
theorem c3_no_rust_functions_error_witness :
    build { function := none } { error := none, status := some 0 }
        { provider := { name := "aws", runtime := none },
          functions := [("hello", { runtime := some "python3.8", package := none })] } =
      { service := { provider := { name := "aws", runtime := none },
                     functions := [("hello", { runtime := some "python3.8", package := none })] },
        err := some (.error noRustFunctionsMessage), spawned := false, log := [] }
    ∧ strIncludes noRustFunctionsMessage RUST_RUNTIME :=
  c3_no_rust_functions_error _ _ _ (by decide)
    (by
      intro n hn
      simp [scopedFunctions, Service.getAllFunctions] at hn
      subst hn
      exact ⟨{ runtime := some "python3.8", package := none }, by decide, by decide⟩)

/-- Claim C2: when the subprocess reports a spawn error or a positive exit
status, `build` throws before the rewrite loop runs: the thrown error is the
build-failure error and the service object is completely unchanged. -/
theorem c2_failed_build_mutates_nothing (opts : Options) (res : SpawnResult) (service : Service)
    (hprov : service.provider.name = "aws")
    (hres : ∀ n ∈ scopedFunctions opts service, (service.getFunction n).isSome)
    (hmatch : ∃ n ∈ scopedFunctions opts service, ∃ f, service.getFunction n = some f ∧
      jsOr f.runtime service.provider.runtime = some RUST_RUNTIME)
    (hbad : res.error.isSome ∨ jsStatusPos res.status) :
    build opts res service =
      { service := service, err := some (.error (thrownBuildMessage res)),
        spawned := true,
        log := ["Running containerized build", buildFailureDiagnostic res] } := by
  have hfound := rustFunctionsFound_true service (scopedFunctions opts service) hres hmatch
  have hbad' : (res.error.isSome || jsStatusPos res.status) = true := by
    rcases hbad with h | h <;> simp [h]
  simp [build, hprov, hfound, hbad']

/-- Witness for C2: exit status 7 on a service with one Rust function. -/
theorem c2_failed_build_mutates_nothing_witness :
    build { function := none } { error := none, status := some 7 }
        { provider := { name := "aws", runtime := none },
          functions := [("app", { runtime := some "rust", package := none })] } =
      { service := { provider := { name := "aws", runtime := none },
                     functions := [("app", { runtime := some "rust", package := none })] },
        err := some (.error (thrownBuildMessage { error := none, status := some 7 })),
        spawned := true,
        log := ["Running containerized build",
                buildFailureDiagnostic { error := none, status := some 7 }] } :=
  c2_failed_build_mutates_nothing _ _ _ (by decide)
    (by intro n hn; simp [scopedFunctions, Service.getAllFunctions] at hn; subst hn; decide)
    ⟨"app", by decide, { runtime := some "rust", package := none }, by decide, by decide⟩
    (Or.inr (by decide))

/-- Claim C1 (code bug): the spec's success-path contract is the clear
intent (the source's own comment at line 172 expects a packaged binary to
be wired into each function), but on a successful build (provider "aws",
one function with runtime "rust", exit status 0) the rewrite loop reads the
undeclared variable `profile` (src/index.js:183) and throws a
ReferenceError on its first iteration: no artifact path is assigned, no
function runtime is rewritten, and the pipeline-wide default runtime is
left untouched. -/
theorem c1_success_path_crashes_before_rewrite :
    build { function := none } { error := none, status := some 0 }
        { provider := { name := "aws", runtime := none },
          functions := [("hello", { runtime := some "rust", package := none })] } =
      { service := { provider := { name := "aws", runtime := none },
                     functions := [("hello", { runtime := some "rust", package := none })] },
        err := some (.referenceError "profile"), spawned := true,
        log := ["Running containerized build"] } := by
  decide

/-- Claim C5 (code bug): the artifact path
`<srcPath>/target/lambda/<debug|release>/<binary>.zip` is never computed:
the expression at src/index.js:181-185 reads the undeclared variables
`profile` and `binary`, so evaluating it throws a ReferenceError.  Here the
build succeeds (exit 0) for a single caller-specified function whose
effective runtime comes from the pipeline-wide default "rust" and the
configured profile is irrelevant: `build` still ends in the
ReferenceError and assigns no path. -/
theorem c5_artifact_path_never_computed :
    build { function := some "handler" } { error := none, status := some 0 }
        { provider := { name := "aws", runtime := some "rust" },
          functions := [("handler", { runtime := none, package := none })] } =
      { service := { provider := { name := "aws", runtime := some "rust" },
                     functions := [("handler", { runtime := none, package := none })] },
        err := some (.referenceError "profile"), spawned := true,
        log := ["Running containerized build"] } := by
  decide

/-- Claim C10 (code bug): the rewrite loop is written to visit every
function in scope — including the non-Rust "py" function — and assign each
an artifact path, but it crashes with a ReferenceError on the very first
function before any `func.package` assignment, so after a successful build
no function (Rust or not) carries an artifact and no runtime is
rewritten. -/
theorem c10_rewrite_loop_assigns_nothing :
    build { function := none } { error := none, status := some 0 }
        { provider := { name := "aws", runtime := none },
          functions := [("rusty", { runtime := some "rust", package := none }),
                        ("py", { runtime := some "python3.8", package := none })] } =
      { service := { provider := { name := "aws", runtime := none },
                     functions := [("rusty", { runtime := some "rust", package := none }),
                                   ("py", { runtime := some "python3.8", package := none })] },
        err := some (.referenceError "profile"), spawned := true,
        log := ["Running containerized build"] } := by
  decide

/-- Claim C6, counterexample: when the subprocess merely exits with status
1 (no spawn error), the error `build` throws is `new Error(res.error)` with
`res.error === undefined`, whose message is the empty string — it does not
include the exit status "1" (nor anything else).  The claim that the thrown
message includes the exit status is therefore false. -/
theorem c6_thrown_message_counterexample :
    (build { function := none } { error := none, status := some 1 }
        { provider := { name := "aws", runtime := some "rust" },
          functions := [("app", { runtime := none, package := none })] }).err =
      some (.error "") ∧ ¬ strIncludes "" "1" := by
  constructor
  · decide
  · rintro ⟨pre, post, h⟩
    have hlen := congrArg String.length h
    simp [String.length_append] at hlen
    have h1 : ("1" : String).length = 1 := rfl
    omega

/-- Claim C6, amended: on a failed build the *logged* diagnostic includes
both the spawn error (rendered "undefined" when absent) and the exit status
(rendered "null" when absent), while the *thrown* error's message is only
the string form of the spawn error — empty when the failure was a nonzero
exit status with no spawn error. -/
theorem c6_amended_log_carries_error_and_status (opts : Options) (res : SpawnResult)
    (service : Service)
    (hprov : service.provider.name = "aws")
    (hres : ∀ n ∈ scopedFunctions opts service, (service.getFunction n).isSome)
    (hmatch : ∃ n ∈ scopedFunctions opts service, ∃ f, service.getFunction n = some f ∧
      jsOr f.runtime service.provider.runtime = some RUST_RUNTIME)
    (hbad : res.error.isSome ∨ jsStatusPos res.status) :
    ((res.error = none → (build opts res service).err = some (.error ""))
      ∧ (∀ e, res.error = some e → (build opts res service).err = some (.error e)))
    ∧ ∃ d ∈ (build opts res service).log,
        strIncludes d (jsShowOptStr res.error) ∧ strIncludes d (jsShowStatus res.status) := by
  have hfound := rustFunctionsFound_true service (scopedFunctions opts service) hres hmatch
  have hbad' : (res.error.isSome || jsStatusPos res.status) = true := by
    rcases hbad with h | h <;> simp [h]
  have hb : build opts res service =
      { service := service, err := some (.error (thrownBuildMessage res)),
        spawned := true,
        log := ["Running containerized build", buildFailureDiagnostic res] } := by
    simp [build, hprov, hfound, hbad']
  refine ⟨⟨?_, ?_⟩, buildFailureDiagnostic res, by simp [hb], ?_, ?_⟩
  · intro he
    rw [hb]
    simp [thrownBuildMessage, he]
  · intro e he
    rw [hb]
    simp [thrownBuildMessage, he]
  · exact ⟨"Rust build encountered an error: ", " " ++ jsShowStatus res.status ++ ".",
      by simp [buildFailureDiagnostic, String.append_assoc]⟩
  · exact ⟨"Rust build encountered an error: " ++ jsShowOptStr res.error ++ " ", ".",
      by simp [buildFailureDiagnostic, String.append_assoc]⟩

/-- Witness for the amended C6 at a concrete spawn failure: the log line
carries both the spawn-error text and the (null) status, and the thrown
message is exactly the spawn-error text. -/
theorem c6_amended_log_carries_error_and_status_witness :
    ((({ error := some "Error: spawn docker ENOENT", status := none } : SpawnResult).error = none →
        (build { function := none } { error := some "Error: spawn docker ENOENT", status := none }
            { provider := { name := "aws", runtime := none },
              functions := [("app", { runtime := some "rust", package := none })] }).err =
          some (.error ""))
      ∧ (∀ e, ({ error := some "Error: spawn docker ENOENT", status := none } : SpawnResult).error = some e →
          (build { function := none } { error := some "Error: spawn docker ENOENT", status := none }
              { provider := { name := "aws", runtime := none },
                functions := [("app", { runtime := some "rust", package := none })] }).err =
            some (.error e)))
    ∧ ∃ d ∈ (build { function := none } { error := some "Error: spawn docker ENOENT", status := none }
          { provider := { name := "aws", runtime := none },
            functions := [("app", { runtime := some "rust", package := none })] }).log,
        strIncludes d (jsShowOptStr (some "Error: spawn docker ENOENT"))
        ∧ strIncludes d (jsShowStatus none) :=
  c6_amended_log_carries_error_and_status _ _ _ (by decide)
    (by intro n hn; simp [scopedFunctions, Service.getAllFunctions] at hn; subst hn; decide)
    ⟨"app", by decide, { runtime := some "rust", package := none }, by decide, by decide⟩
    (Or.inl (by decide))

/-! ## Claims about the build argument assembler -/

theorem mem_filterTruthy_ne_empty (l : List String) (x : String)
    (hx : x ∈ l.filter (fun i => i != "")) : x ≠ "" := by
  have := (List.mem_filter.mp hx).2
  simpa using this

theorem filterTruthy_concat_getLast (l : List String) (r : String) (hr : ¬ r = "") :
    ((l ++ [r]).filter (fun i => i != "")).getLast? = some r := by
  rw [List.filter_append]
  have h1 : List.filter (fun i => i != "") [r] = [r] := by simp [hr]
  rw [h1, List.getLast?_concat]

theorem append_ne_empty_right (a b : String) : a ++ ":" ++ b ≠ "" := by
  intro h
  have := congrArg String.length h
  simp [String.length_append] at this
  have h1 : (":" : String).length = 1 := rfl
  omega

/-- Claim C4: with a selected cargo package, empty configured cargoFlags
yield exactly `" -p <package>"` (leading space) and non-empty ones yield
`"<cargoFlags> -p <package>"`; and the assembled argument list contains the
`("-e", "CARGO_FLAGS=<flags>")` pair appended after the environment and
profile arguments if and only if the resulting flags string is
non-empty. -/
theorem c4_cargo_flags_contract (custom : Custom) (p : String) (cargoPackage : Option String)
    (profile : Option String) (srcPath cargoRegistry cargoDownloads : String)
    (env : String → Option String) :
    (custom.cargoFlags = "" → assembledCargoFlags custom.cargoFlags (some p) = " -p " ++ p)
    ∧ (custom.cargoFlags ≠ "" →
        assembledCargoFlags custom.cargoFlags (some p) = custom.cargoFlags ++ " -p " ++ p)
    ∧ dockerBuildArgs custom cargoPackage profile srcPath cargoRegistry cargoDownloads env =
        (["run", "--rm", "-t", "-e",
          "-v", srcPath ++ ":/code",
          "-v", cargoRegistry ++ ":/cargo/registry",
          "-v", cargoDownloads ++ ":/cargo/git"]
          ++ (jsOrDefault (env "SLS_DOCKER_ARGS") "").splitOn " "
          ++ (if jsStrTruthy profile then ["-e", "PROFILE=" ++ profile.getD ""] else [])
          ++ (if assembledCargoFlags custom.cargoFlags cargoPackage ≠ "" then
                ["-e", "CARGO_FLAGS=" ++ assembledCargoFlags custom.cargoFlags cargoPackage]
              else [])
          ++ [custom.dockerTag ++ ":" ++ custom.dockerImage]).filter (fun i => i != "") := by
  refine ⟨?_, ?_, ?_⟩
  · intro h
    simp [assembledCargoFlags, h]
  · intro h
    simp [assembledCargoFlags, h]
  · by_cases h1 : jsStrTruthy profile <;>
      by_cases h2 : assembledCargoFlags custom.cargoFlags cargoPackage = "" <;>
      simp [dockerBuildArgs, h1, h2, List.append_assoc]

/-- Witness for C4 with cargoFlags "--features f", package "pkg" and a
profile: the flags pair is present with the concatenated value. -/
theorem c4_cargo_flags_contract_witness :
    ((("--features f" : String) = "" →
        assembledCargoFlags "--features f" (some "pkg") = " -p " ++ "pkg")
      ∧ (("--features f" : String) ≠ "" →
        assembledCargoFlags "--features f" (some "pkg") = "--features f" ++ " -p " ++ "pkg")
      ∧ dockerBuildArgs ⟨"--features f", "latest", "img", false, some "pkg", some "dev"⟩
          (some "pkg") (some "dev") "/src" "/reg" "/dl" (fun _ => none) =
        (["run", "--rm", "-t", "-e",
          "-v", "/src" ++ ":/code",
          "-v", "/reg" ++ ":/cargo/registry",
          "-v", "/dl" ++ ":/cargo/git"]
          ++ (jsOrDefault ((fun _ => none) "SLS_DOCKER_ARGS") "").splitOn " "
          ++ (if jsStrTruthy (some "dev") then ["-e", "PROFILE=" ++ (some "dev").getD ""] else [])
          ++ (if assembledCargoFlags "--features f" (some "pkg") ≠ "" then
                ["-e", "CARGO_FLAGS=" ++ assembledCargoFlags "--features f" (some "pkg")]
              else [])
          ++ ["latest" ++ ":" ++ "img"]).filter (fun i => i != "")) :=
  c4_cargo_flags_contract ⟨"--features f", "latest", "img", false, some "pkg", some "dev"⟩
    "pkg" (some "pkg") (some "dev") "/src" "/reg" "/dl" (fun _ => none)

/-- Claim C8: for every configuration and environment the assembled
argument list ends with the fully-qualified image reference
`<dockerTag>:<dockerImage>` (tag first, literally) and contains no empty
entry (the only falsy strings). -/
theorem c8_image_ref_last_no_empty (custom : Custom) (cargoPackage : Option String)
    (profile : Option String) (srcPath cargoRegistry cargoDownloads : String)
    (env : String → Option String) :
    (dockerBuildArgs custom cargoPackage profile srcPath cargoRegistry cargoDownloads env).getLast?
      = some (custom.dockerTag ++ ":" ++ custom.dockerImage)
    ∧ ∀ x ∈ dockerBuildArgs custom cargoPackage profile srcPath cargoRegistry cargoDownloads env,
        x ≠ "" := by
  constructor
  · show ((_ ++ _ ++ [custom.dockerTag ++ ":" ++ custom.dockerImage]).filter
      (fun i => i != "")).getLast? = _
    exact filterTruthy_concat_getLast _ _
      (append_ne_empty_right custom.dockerTag custom.dockerImage)
  · intro x hx
    exact mem_filterTruthy_ne_empty _ _ hx

/-- Witness for C8 at a concrete configuration with an adversarial
environment containing extra whitespace (which produces empty fragments
that must be filtered out). -/
theorem c8_image_ref_last_no_empty_witness :
    (dockerBuildArgs ⟨"", "v0.2", "softprops/lambda-rust", false, none, none⟩ none none
        "/src" "/reg" "/dl" (fun k => if k = "SLS_DOCKER_ARGS" then some "-e  A=1" else none)).getLast?
      = some ("v0.2" ++ ":" ++ "softprops/lambda-rust")
    ∧ ∀ x ∈ dockerBuildArgs ⟨"", "v0.2", "softprops/lambda-rust", false, none, none⟩ none none
        "/src" "/reg" "/dl" (fun k => if k = "SLS_DOCKER_ARGS" then some "-e  A=1" else none),
        x ≠ "" :=
  c8_image_ref_last_no_empty ⟨"", "v0.2", "softprops/lambda-rust", false, none, none⟩ none none
    "/src" "/reg" "/dl" (fun k => if k = "SLS_DOCKER_ARGS" then some "-e  A=1" else none)

/-! ## Claims about the version-gated hook registration -/

theorem isDigit_not_whitespace (c : Char) (h : c.isDigit = true) : c.isWhitespace = false := by
  simp only [Char.isWhitespace, Bool.or_eq_false_iff, decide_eq_false_iff_not]
  refine ⟨⟨⟨?_, ?_⟩, ?_⟩, ?_⟩ <;> (intro hh; subst hh; revert h; decide)

theorem isDigit_ne_minus (c : Char) (h : c.isDigit = true) : ¬ (c = '-') := by
  intro hh; subst hh; revert h; decide

theorem isDigit_ne_plus (c : Char) (h : c.isDigit = true) : ¬ (c = '+') := by
  intro hh; subst hh; revert h; decide

theorem isDigit_ne_dot (c : Char) (h : c.isDigit = true) : ¬ (c = '.') := by
  intro hh; subst hh; revert h; decide

theorem jsSplit_ne_nil (sep : Char) (l : List Char) : jsSplit sep l ≠ [] := by
  induction l with
  | nil => simp [jsSplit]
  | cons c rest ih =>
    by_cases h : c = sep
    · simp [jsSplit, h]
    · cases hs : jsSplit sep rest with
      | nil => exact absurd hs ih
      | cons g gs => simp [jsSplit, h, hs]

theorem jsSplit_append_sep (sep : Char) (l r : List Char) (hl : sep ∉ l) :
    jsSplit sep (l ++ sep :: r) = l :: jsSplit sep r := by
  induction l with
  | nil => simp [jsSplit]
  | cons c cs ih =>
    have hc : ¬ (c = sep) := fun h => hl (h ▸ List.mem_cons_self c cs)
    have hcs : sep ∉ cs := fun h => hl (List.mem_cons_of_mem c h)
    have hrec := ih hcs
    simp only [List.cons_append, jsSplit, hc, if_false, List.append_eq]
    rw [hrec]

theorem jsSplit_no_sep (sep : Char) (l : List Char) (hl : sep ∉ l) :
    jsSplit sep l = [l] := by
  induction l with
  | nil => rfl
  | cons c cs ih =>
    have hc : ¬ (c = sep) := fun h => hl (h ▸ List.mem_cons_self c cs)
    have hcs : sep ∉ cs := fun h => hl (List.mem_cons_of_mem c h)
    simp only [jsSplit, hc, if_false]
    rw [ih hcs]

theorem jsParseInt_digits (c : Char) (cs : List Char)
    (h2 : ∀ x ∈ c :: cs, x.isDigit = true) :
    jsParseInt (c :: cs) = some ((digitsToNat 0 (c :: cs) : Nat) : Int) := by
  have hc := h2 c (List.mem_cons_self c cs)
  have hdrop : (c :: cs).dropWhile Char.isWhitespace = c :: cs := by
    rw [List.dropWhile_cons]
    simp [isDigit_not_whitespace c hc]
  have htake : (c :: cs).takeWhile Char.isDigit = c :: cs :=
    List.takeWhile_eq_self_iff.mpr h2
  simp only [jsParseInt, hdrop]
  rw [if_neg (isDigit_ne_minus c hc), if_neg (isDigit_ne_plus c hc)]
  simp [jsParseNat, htake]

theorem includeInvokeHook_digits (ds1 ds2 tail : List Char)
    (h1 : ds1 ≠ []) (h2 : ds2 ≠ [])
    (hd1 : ∀ c ∈ ds1, c.isDigit = true) (hd2 : ∀ c ∈ ds2, c.isDigit = true)
    (ht : tail = [] ∨ ∃ t, tail = '.' :: t) :
    includeInvokeHook (String.mk (ds1 ++ '.' :: (ds2 ++ tail))) =
      (decide ((digitsToNat 0 ds1 : Int) = 1) &&
        (decide ((38 : Int) ≤ (digitsToNat 0 ds2 : Nat)) &&
          decide (((digitsToNat 0 ds2 : Nat) : Int) < 40))) := by
  have hdot1 : '.' ∉ ds1 := fun hmem => isDigit_ne_dot '.' (hd1 '.' hmem) rfl
  have hdot2 : '.' ∉ ds2 := fun hmem => isDigit_ne_dot '.' (hd2 '.' hmem) rfl
  obtain ⟨c1, cs1, rfl⟩ := List.exists_cons_of_ne_nil h1
  obtain ⟨c2, cs2, rfl⟩ := List.exists_cons_of_ne_nil h2
  have hparts : ∃ restParts,
      jsSplit '.' ((c1 :: cs1) ++ '.' :: ((c2 :: cs2) ++ tail)) =
        (c1 :: cs1) :: (c2 :: cs2) :: restParts := by
    rcases ht with rfl | ⟨t, rfl⟩
    · refine ⟨[], ?_⟩
      rw [List.append_nil, jsSplit_append_sep '.' _ _ hdot1, jsSplit_no_sep '.' _ hdot2]
    · refine ⟨jsSplit '.' t, ?_⟩
      rw [jsSplit_append_sep '.' _ _ hdot1, jsSplit_append_sep '.' _ t hdot2]
  obtain ⟨restParts, hparts⟩ := hparts
  have hdata : (String.mk ((c1 :: cs1) ++ '.' :: ((c2 :: cs2) ++ tail))).data =
      (c1 :: cs1) ++ '.' :: ((c2 :: cs2) ++ tail) := rfl
  simp only [includeInvokeHook, hdata, hparts, List.head?_cons,
    List.getElem?_cons_succ, List.getElem?_cons_zero, Option.some_bind]
  rw [jsParseInt_digits c1 cs1 hd1, jsParseInt_digits c2 cs2 hd2]
  simp

/-- Claim C9: for a host version string of the form "<major>.<minor>" or
"<major>.<minor>.<anything>" (both components non-empty digit runs), the
`before:invoke:local:invoke` hook is registered if and only if the parsed
major version is 1 and the parsed minor version lies in the closed-open
interval [38, 40). -/
theorem c9_invoke_hook_version_gate (ds1 ds2 tail : List Char)
    (h1 : ds1 ≠ []) (h2 : ds2 ≠ [])
    (hd1 : ∀ c ∈ ds1, c.isDigit = true) (hd2 : ∀ c ∈ ds2, c.isDigit = true)
    (ht : tail = [] ∨ ∃ t, tail = '.' :: t) :
    "before:invoke:local:invoke" ∈ pluginHooks (String.mk (ds1 ++ '.' :: (ds2 ++ tail)))
      ↔ (digitsToNat 0 ds1 = 1 ∧ 38 ≤ digitsToNat 0 ds2 ∧ digitsToNat 0 ds2 < 40) := by
  have hbase : "before:invoke:local:invoke" ∉
      (["before:package:createDeploymentArtifacts",
        "before:deploy:function:packageFunction",
        "before:offline:start",
        "before:offline:start:init"] : List String) := by decide
  rw [pluginHooks, List.mem_append, includeInvokeHook_digits ds1 ds2 tail h1 h2 hd1 hd2 ht,
    eq_false hbase, false_or]
  simp only [List.mem_ite_nil_right, List.mem_singleton, Bool.and_eq_true,
    decide_eq_true_eq, eq_self_iff_true, and_true]
  omega

/-- Witness for C9 at the version string "1.39": the invoke hook is
registered (1 = 1 and 38 ≤ 39 < 40). -/
theorem c9_invoke_hook_version_gate_witness :
    "before:invoke:local:invoke" ∈ pluginHooks (String.mk (['1'] ++ '.' :: (['3', '9'] ++ []))) :=
  (c9_invoke_hook_version_gate ['1'] ['3', '9'] [] (by decide) (by decide)
    (by decide) (by decide) (Or.inl rfl)).mpr (by decide)

end ServerlessRust
